import Mathlib

/-!
Verification of the per-connection authentication layer of the mgo MongoDB
driver (src/auth.go).  The mutable socket fields `socket.creds` (active
credential set) and `socket.logout` (pending-logout queue) are embedded as an
explicit state record; the network round trips performed by `loginRun` are
embedded as an explicit environment describing the outcome of each round trip
(send failure, transport failure on reply delivery, decode failure, or a
decoded result document).  The multi-round SASL loop is given explicit fuel,
with a distinguished `outOfFuel` outcome marking a run that has not terminated
within the given number of rounds.
-/

/-- Modelled from the spec: the `Credential` record is declared in the
driver outside src/ (only its use sites appear in src/auth.go).  Spec section 3:
principal name, secret, authentication source namespace, mechanism identifier,
optional service name, optional service host; value type, equality is
full-field comparison. -/
structure Credential where
  Username : String
  Password : String
  Source : String
  Service : String
  ServiceHost : String
  Mechanism : String
deriving DecidableEq, Repr

/-- The per-socket authentication state: `socket.creds` (active set) and
`socket.logout` (pending-logout queue), both slices of credentials. -/
structure AuthState where
  creds : List Credential
  logout : List Credential
deriving DecidableEq, Repr

/-- `saslResult` from src/auth.go: `Ok bool`, `NotOk bool` (the `code` field;
a nonzero code decodes to true), `Done bool`, conversation id, payload,
error message. -/
structure saslResult where
  Ok : Bool
  NotOk : Bool
  Done : Bool
  ConversationId : Int
  Payload : List Nat
  ErrMsg : String
deriving DecidableEq, Repr

/-- `authResult` from src/auth.go: `ErrMsg string`, `Ok bool`. -/
structure authResult where
  ErrMsg : String
  Ok : Bool
deriving DecidableEq, Repr

/-- Outcome of one `loginRun` invocation (src/auth.go lines 273-306):
the send may fail (`socket.Query` error), the reply callback may be invoked
with a transport error, `bson.Unmarshal` may fail, or the decoded result
document is delivered to the completion closure. -/
inductive wireOutcome (α : Type) where
  | sendErr (e : String)
  | replyErr (e : String)
  | decodeErr (e : String)
  | decoded (r : α)
deriving DecidableEq, Repr

/-- Result of a `Login` call: success, an error, or (for the fuelled SASL
loop) exhaustion of the fuel, i.e. a run that has not terminated yet. -/
inductive LoginOutcome where
  | ok
  | err (msg : String)
  | outOfFuel
deriving DecidableEq, Repr

/-- `mongoSocket.dropAuth` (src/auth.go lines 345-354) as a pure function on
the creds list: remove the first credential whose `Source` equals `db`,
returning it together with the remaining list. -/
def dropAuth : List Credential → String → Option Credential × List Credential
  | [], _ => (none, [])
  | c :: rest, db =>
    if c.Source = db then (some c, rest)
    else
      let r := dropAuth rest db
      (r.1, c :: r.2)

/-- `mongoSocket.dropLogout` (src/auth.go lines 356-365) as a pure function on
the logout list: remove the first credential equal to `cred`, reporting
whether one was found. -/
def dropLogout : List Credential → Credential → Bool × List Credential
  | [], _ => (false, [])
  | c :: rest, cred =>
    if c = cred then (true, rest)
    else
      let r := dropLogout rest cred
      (r.1, c :: r.2)

/-- The commit performed on driver success (src/auth.go lines 148-150,
163-165, 217-219, 244-246): `dropAuth(cred.Source)` followed by appending
`cred` to the active set.  The pending-logout queue is untouched. -/
def commitCred (cred : Credential) (st : AuthState) : AuthState :=
  { st with creds := (dropAuth st.creds cred.Source).2 ++ [cred] }

/-- The mechanism defaulting at the top of `Login`
(src/auth.go lines 94-96). -/
def defaultMech (c : Credential) : Credential :=
  if c.Mechanism = "" then { c with Mechanism := "SCRAM-SHA-1" } else c

/-- The error produced for legacy challenge-response mechanisms
(src/auth.go line 118). -/
def unsupportedMechMsg (m : String) : String :=
  "authentication mechanism \"" ++ m ++
    "\" is no longer supported, please use SCRAM-SHA-1 or SCRAM-SHA-256"

/-- The error produced when a SASL round returns a not-ok reply
(src/auth.go line 237). -/
def saslStepErrMsg (e : String) : String :=
  "server returned error on SASL authentication step: " ++ e

/-- The reply check of the SASL completion closure
(src/auth.go line 236): `!res.Ok || res.NotOk` means failure, even when
`Ok` is true but the legacy error code is nonzero. -/
def saslResultError (r : saslResult) : Bool :=
  !r.Ok || r.NotOk

/-- `mongoSocket.loginX509` (src/auth.go lines 141-154): one round trip; on a
not-ok result the remote error message is returned and the state is untouched;
on ok the credential is committed.  The third component counts `loginRun`
invocations (network operations). -/
def loginX509 (w : wireOutcome authResult) (cred : Credential) (st : AuthState) :
    LoginOutcome × AuthState × Nat :=
  match w with
  | .sendErr e => (.err e, st, 1)
  | .replyErr e => (.err e, st, 1)
  | .decodeErr e => (.err e, st, 1)
  | .decoded res =>
    if !res.Ok then (.err res.ErrMsg, st, 1)
    else (.ok, commitCred cred st, 1)

/-- `mongoSocket.loginPlain` (src/auth.go lines 156-169): identical state
behaviour to `loginX509`, differing only in the command document sent. -/
def loginPlain (w : wireOutcome authResult) (cred : Credential) (st : AuthState) :
    LoginOutcome × AuthState × Nat :=
  match w with
  | .sendErr e => (.err e, st, 1)
  | .replyErr e => (.err e, st, 1)
  | .decodeErr e => (.err e, st, 1)
  | .decoded res =>
    if !res.Ok then (.err res.ErrMsg, st, 1)
    else (.ok, commitCred cred st, 1)

/-- The loop of `mongoSocket.loginSASL` (src/auth.go lines 209-249).
Arguments: fuel, stepper state, last reply (`res`), count of `loginRun`
invocations so far, the local `cred` variable (whose `Mechanism` field is
erased at line 232 before each round trip), and the socket state.
Each iteration: `sasl.Step(res.Payload)`; if the step errs, return it; if both
the local done flag and the previous reply done flag are set, commit and
succeed; otherwise build the command (erasing `cred.Mechanism`), run it, fail
on transport/decode errors or a not-ok reply, commit and succeed if both done
flags are now set, else iterate. -/
def saslLoop {σ : Type} (stepF : σ → List Nat → Except String (σ × List Nat × Bool))
    (replies : Nat → wireOutcome saslResult) :
    Nat → σ → saslResult → Nat → Credential → AuthState → LoginOutcome × AuthState × Nat
  | 0, _, _, n, _, st => (.outOfFuel, st, n)
  | fuel + 1, s, res, n, cred, st =>
    match stepF s res.Payload with
    | .error e => (.err e, st, n)
    | .ok (s', _payload, done) =>
      if done && res.Done then (.ok, commitCred cred st, n)
      else
        let cred' := { cred with Mechanism := "" }
        match replies n with
        | .sendErr e => (.err e, st, n + 1)
        | .replyErr e => (.err e, st, n + 1)
        | .decodeErr e => (.err e, st, n + 1)
        | .decoded r =>
          if saslResultError r then (.err (saslStepErrMsg r.ErrMsg), st, n + 1)
          else if done && r.Done then (.ok, commitCred cred' st, n + 1)
          else saslLoop stepF replies fuel s' r (n + 1) cred' st

/-- The zero value of `saslResult`, the initial `res` of the SASL loop. -/
def initSaslResult : saslResult :=
  { Ok := false, NotOk := false, Done := false, ConversationId := 0,
    Payload := [], ErrMsg := "" }

/-- `mongoSocket.loginSASL` (src/auth.go lines 171-252), parametrised by the
stepper (its step function and initial state) and the reply environment. -/
def loginSASL {σ : Type} (stepF : σ → List Nat → Except String (σ × List Nat × Bool))
    (replies : Nat → wireOutcome saslResult) (fuel : Nat) (s0 : σ)
    (cred : Credential) (st : AuthState) : LoginOutcome × AuthState × Nat :=
  saslLoop stepF replies fuel s0 initSaslResult 0 cred st

/-- The environment a `Login` call runs against: the outcome of the single
round trip used by the plaintext and certificate drivers, and the stepper and
reply sequence used by the SASL driver (for SCRAM-SHA-1 the stepper stands for
the built-in scram client; for other mechanisms, the externally provided one;
a stepper-construction failure is represented by a step function that errs on
its first call, which has the same observable effect in src/auth.go: the error
is returned before any state change). -/
structure MechEnv (σ : Type) where
  single : wireOutcome authResult
  stepF : σ → List Nat → Except String (σ × List Nat × Bool)
  s0 : σ
  replies : Nat → wireOutcome saslResult
  fuel : Nat

/-- `mongoSocket.Login` (src/auth.go lines 91-134): default the mechanism,
return success with no network activity if an equal credential is active,
revive an equal pending-logout credential (removing it from the queue and
appending it to the active set, again with no network activity), otherwise
dispatch on the mechanism: legacy challenge-response identifiers fail
immediately, PLAIN and MONGODB-X509 run their single-round drivers, everything
else runs the SASL loop. -/
def Login {σ : Type} (env : MechEnv σ) (cred0 : Credential) (st : AuthState) :
    LoginOutcome × AuthState × Nat :=
  let cred := defaultMech cred0
  if cred ∈ st.creds then (.ok, st, 0)
  else if (dropLogout st.logout cred).1 then
    (.ok, { creds := st.creds ++ [cred], logout := (dropLogout st.logout cred).2 }, 0)
  else if cred.Mechanism = "MONGODB-CR" ∨ cred.Mechanism = "MONGO-CR" then
    (.err (unsupportedMechMsg cred.Mechanism), st, 0)
  else if cred.Mechanism = "PLAIN" then loginPlain env.single cred st
  else if cred.Mechanism = "MONGODB-X509" then loginX509 env.single cred st
  else loginSASL env.stepF env.replies env.fuel env.s0 cred st

/-- `mongoSocket.Logout` (src/auth.go lines 308-316): if a credential for
`db` is active, move it from the active set to the pending-logout queue;
otherwise leave the state unchanged. -/
def Logout (db : String) (st : AuthState) : AuthState :=
  match dropAuth st.creds db with
  | (some cred, rest) => { creds := rest, logout := st.logout ++ [cred] }
  | (none, _) => st

/-- `mongoSocket.LogoutAll` (src/auth.go lines 318-326): move every active
credential to the pending-logout queue. -/
def LogoutAll (st : AuthState) : AuthState :=
  if st.creds.length > 0 then { creds := [], logout := st.logout ++ st.creds }
  else st

/-- The wire-ready logout command descriptor built by `flushLogout`
(src/auth.go lines 332-337): query `logoutCmd{1}`, collection
`Source + ".$cmd"`, limit `-1`. -/
structure logoutOp where
  logoutVal : Nat
  collection : String
  limit : Int
deriving DecidableEq, Repr

/-- One logout descriptor for a credential, as built by `flushLogout`. -/
def mkLogoutOp (c : Credential) : logoutOp :=
  { logoutVal := 1, collection := c.Source ++ ".$cmd", limit := -1 }

/-- `mongoSocket.flushLogout` (src/auth.go lines 328-343): drain the
pending-logout queue into one descriptor per queued credential, in queue
order, emptying the queue.  The active set is untouched. -/
def flushLogout (st : AuthState) : List logoutOp × AuthState :=
  (st.logout.map mkLogoutOp, { st with logout := [] })

/-- One public operation on the per-socket authentication state. -/
inductive AuthOp (σ : Type) where
  | opLogin (env : MechEnv σ) (c : Credential)
  | opLogout (db : String)
  | opLogoutAll
  | opFlush

/-- The state transformation of one public operation. -/
def applyOp {σ : Type} : AuthOp σ → AuthState → AuthState
  | .opLogin env c, st => (Login env c st).2.1
  | .opLogout db, st => Logout db st
  | .opLogoutAll, st => LogoutAll st
  | .opFlush, st => (flushLogout st).2

/-- The per-source uniqueness invariant on the active set: no two credentials
share a source namespace. -/
def sourcesUnique : List Credential → Bool
  | [] => true
  | c :: rest => rest.all (fun d => d.Source != c.Source) && sourcesUnique rest

/-- Modelled from the spec: the internal salted challenge-response client
(package internal/scram), which is not under src/; only its wrapper
`saslScram.Step` (src/auth.go lines 268-271) is.  Spec section 4.4 describes a
four-message exchange (client-first / server-first / client-final /
server-final): the stepper produces a client payload on each of its first
three calls, reports local completion on the third, and afterwards stays
complete without error.  Payload contents are irrelevant to the claims proved
here and are abstracted to the round index. -/
def scramModelStep : Nat → List Nat → Except String (Nat × List Nat × Bool) :=
  fun s _ => if s ≥ 3 then .ok (s, [], true) else .ok (s + 1, [s], s + 1 ≥ 3)

/-- A stepper that is locally done on its first call (client-first data only),
used to build concrete one-round-trip executions. -/
def stepDoneNow : Nat → List Nat → Except String (Nat × List Nat × Bool) :=
  fun s _ => .ok (s, [], true)

/-- A reply with ok set, zero error code and the done flag set. -/
def okDoneReply : saslResult :=
  { initSaslResult with Ok := true, Done := true }

/-- A reply with ok set, zero error code and the done flag clear. -/
def okNotDoneReply : saslResult :=
  { initSaslResult with Ok := true }

/-- A reply exhibiting the legacy server quirk: ok set together with a
nonzero error code. -/
def badCodeReply : saslResult :=
  { initSaslResult with Ok := true, NotOk := true, ErrMsg := "oops" }

/-- An environment whose round trips all succeed: the single-round drivers get
an ok result, the SASL driver a done stepper and ok/done replies. -/
def envOk : MechEnv Nat :=
  { single := .decoded { ErrMsg := "", Ok := true },
    stepF := stepDoneNow, s0 := 0,
    replies := fun _ => .decoded okDoneReply, fuel := 10 }

/-- A reply sequence that always reports ok without ever setting done. -/
def neverDoneReplies : Nat → wireOutcome saslResult :=
  fun _ => .decoded okNotDoneReply

/-- A reply sequence whose every round trip fails in transport. -/
def eofReplies : Nat → wireOutcome saslResult :=
  fun _ => .replyErr "eof"

/-- A reply sequence that always returns the ok-but-nonzero-code reply. -/
def badCodeReplies : Nat → wireOutcome saslResult :=
  fun _ => .decoded badCodeReply

/-- An environment whose single round trip fails in transport. -/
def envEof : MechEnv Nat :=
  { envOk with single := .replyErr "eof" }

/-- A SCRAM-SHA-1 credential used in concrete executions. -/
def credScram : Credential :=
  { Username := "u", Password := "p", Source := "db", Service := "",
    ServiceHost := "", Mechanism := "SCRAM-SHA-1" }

/-- The same credential with an empty mechanism identifier (also the form in
which the SASL driver commits it). -/
def credEmptyMech : Credential :=
  { credScram with Mechanism := "" }

/-- A PLAIN credential used in concrete executions. -/
def credPlain : Credential :=
  { credScram with Mechanism := "PLAIN" }

/-- A first X509 credential on namespace db. -/
def credX1 : Credential :=
  { Username := "u1", Password := "p", Source := "db", Service := "",
    ServiceHost := "", Mechanism := "MONGODB-X509" }

/-- A second X509 credential on the same namespace db. -/
def credX2 : Credential :=
  { credX1 with Username := "u2" }

/-- A SCRAM credential of a second user on namespace db. -/
def credU2 : Credential :=
  { credScram with Username := "u2" }

/-- The empty authentication state of a fresh socket. -/
def st0 : AuthState := { creds := [], logout := [] }

/-- Erasing an already-empty mechanism field is the identity. -/
theorem eraseMech_self (c : Credential) (h : c.Mechanism = "") :
    { c with Mechanism := "" } = c := by
  cases c
  simp_all

/-- If `dropAuth` finds nothing, the list is returned unchanged. -/
theorem dropAuth_fst_none (l : List Credential) (s : String)
    (h : (dropAuth l s).1 = none) : (dropAuth l s).2 = l := by
  induction l with
  | nil => simp [dropAuth]
  | cons x r ih =>
    by_cases hx : x.Source = s
    · simp [dropAuth, hx] at h
    · simp only [dropAuth, if_neg hx] at h ⊢
      simp [ih h]

/-- Membership in the remainder of a `dropAuth` implies membership in the
original list. -/
theorem dropAuth_mem (l : List Credential) (s : String) (d : Credential)
    (h : d ∈ (dropAuth l s).2) : d ∈ l := by
  induction l with
  | nil => simp [dropAuth] at h
  | cons x r ih =>
    by_cases hx : x.Source = s
    · simp only [dropAuth, if_pos hx] at h
      exact List.mem_cons_of_mem x h
    · simp only [dropAuth, if_neg hx, List.mem_cons] at h
      rcases h with h | h
      · exact h ▸ List.mem_cons_self x r
      · exact List.mem_cons_of_mem x (ih h)

/-- A credential that is in the list but not in the remainder of a `dropAuth`
is exactly the dropped credential, and its source is the dropped namespace. -/
theorem dropAuth_removed (l : List Credential) (s : String) (c : Credential)
    (hin : c ∈ l) (hout : c ∉ (dropAuth l s).2) :
    (dropAuth l s).1 = some c ∧ c.Source = s := by
  induction l with
  | nil => simp at hin
  | cons x r ih =>
    by_cases hx : x.Source = s
    · simp only [dropAuth, if_pos hx] at hout ⊢
      rcases List.mem_cons.mp hin with h | h
      · exact ⟨by rw [h], h ▸ hx⟩
      · exact absurd h hout
    · simp only [dropAuth, if_neg hx, List.mem_cons, not_or] at hout ⊢
      rcases List.mem_cons.mp hin with h | h
      · exact absurd h hout.1
      · exact ih h hout.2

/-- Prop form of the per-source-uniqueness check on a cons cell. -/
theorem sourcesUnique_cons (c : Credential) (l : List Credential) :
    sourcesUnique (c :: l) = true ↔
      ((∀ d ∈ l, d.Source ≠ c.Source) ∧ sourcesUnique l = true) := by
  simp [sourcesUnique, List.all_eq_true]

/-- `dropAuth` preserves per-source uniqueness of the active set. -/
theorem sourcesUnique_dropAuth (l : List Credential) (s : String)
    (h : sourcesUnique l = true) : sourcesUnique (dropAuth l s).2 = true := by
  induction l with
  | nil => simpa [dropAuth] using h
  | cons x r ih =>
    rcases (sourcesUnique_cons x r).mp h with ⟨hall, hr⟩
    by_cases hx : x.Source = s
    · simpa [dropAuth, hx] using hr
    · simp only [dropAuth, if_neg hx]
      exact (sourcesUnique_cons x _).mpr
        ⟨fun d hd => hall d (dropAuth_mem r s d hd), ih hr⟩

/-- In a per-source-unique list, nothing left after `dropAuth` carries the
dropped namespace. -/
theorem dropAuth_not_source (l : List Credential) (s : String)
    (h : sourcesUnique l = true) :
    ∀ d ∈ (dropAuth l s).2, d.Source ≠ s := by
  induction l with
  | nil => simp [dropAuth]
  | cons x r ih =>
    rcases (sourcesUnique_cons x r).mp h with ⟨hall, hr⟩
    by_cases hx : x.Source = s
    · simp only [dropAuth, if_pos hx]
      intro d hd
      rw [← hx]
      exact hall d hd
    · simp only [dropAuth, if_neg hx]
      intro d hd
      rcases List.mem_cons.mp hd with hh | hh
      · exact hh ▸ hx
      · exact ih hr d hh

/-- Appending one credential with a fresh source preserves per-source
uniqueness. -/
theorem sourcesUnique_append_one (l : List Credential) (c : Credential)
    (h : sourcesUnique l = true) (hc : ∀ d ∈ l, d.Source ≠ c.Source) :
    sourcesUnique (l ++ [c]) = true := by
  induction l with
  | nil => simp [sourcesUnique]
  | cons x r ih =>
    rcases (sourcesUnique_cons x r).mp h with ⟨hall, hr⟩
    refine (sourcesUnique_cons x _).mpr ⟨?_, ?_⟩
    · intro d hd
      rcases List.mem_append.mp hd with hh | hh
      · exact hall d hh
      · have : d = c := by simpa using hh
        subst this
        exact fun he => hc x (List.mem_cons_self x r) he.symm
    · exact ih hr (fun d hd => hc d (List.mem_cons_of_mem x hd))

/-- Characterization of the SASL loop: provided the carried reply does not
already claim remote completion (or the carried mechanism is already erased),
the loop either ends without success and leaves the state untouched, or ends
in success having committed the carried credential with its mechanism erased
(src/auth.go line 232 erases it before the first round trip, so every commit
observes the erased form). -/
theorem saslLoop_master {σ : Type}
    (stepF : σ → List Nat → Except String (σ × List Nat × Bool))
    (replies : Nat → wireOutcome saslResult) (fuel : Nat) :
    ∀ (s : σ) (res : saslResult) (n : Nat) (cred : Credential) (st : AuthState),
      res.Done = false ∨ cred.Mechanism = "" →
      ((saslLoop stepF replies fuel s res n cred st).1 ≠ .ok ∧
        (saslLoop stepF replies fuel s res n cred st).2.1 = st)
    ∨ ((saslLoop stepF replies fuel s res n cred st).1 = .ok ∧
        (saslLoop stepF replies fuel s res n cred st).2.1 =
          commitCred { cred with Mechanism := "" } st) := by
  induction fuel with
  | zero =>
    intro s res n cred st _
    left
    constructor <;> simp [saslLoop]
  | succ f ih =>
    intro s res n cred st hinv
    rcases hstep : stepF s res.Payload with e | ⟨s', p, d⟩
    · left
      constructor <;> simp [saslLoop, hstep]
    · by_cases hpre : (d && res.Done) = true
      · right
        have hc : cred.Mechanism = "" := by
          rcases hinv with h | h
          · rw [h] at hpre
            simp at hpre
          · exact h
        constructor <;> simp [saslLoop, hstep, hpre, eraseMech_self cred hc]
      · rcases hrep : replies n with e | e | e | r
        · left
          constructor <;> simp [saslLoop, hstep, hpre, hrep]
        · left
          constructor <;> simp [saslLoop, hstep, hpre, hrep]
        · left
          constructor <;> simp [saslLoop, hstep, hpre, hrep]
        · by_cases herr : saslResultError r = true
          · left
            constructor <;> simp [saslLoop, hstep, hpre, hrep, herr]
          · by_cases hdone : (d && r.Done) = true
            · right
              constructor <;> simp [saslLoop, hstep, hpre, hrep, herr, hdone]
            · have heq : saslLoop stepF replies (f + 1) s res n cred st =
                  saslLoop stepF replies f s' r (n + 1)
                    { cred with Mechanism := "" } st := by
                simp [saslLoop, hstep, hpre, hrep, herr, hdone]
              rw [heq]
              exact ih s' r (n + 1) { cred with Mechanism := "" } st (Or.inr rfl)

/-- Characterization of `Login`: it takes the already-active path (success, no
change, no network), the pending-logout revival path (success, queue element
removed and the defaulted credential appended, no network), ends without
success leaving the state untouched, or ends in success having committed some
credential carrying the defaulted credential namespace. -/
theorem login_master {σ : Type} (env : MechEnv σ) (cred0 : Credential)
    (st : AuthState) :
    (defaultMech cred0 ∈ st.creds ∧ Login env cred0 st = (.ok, st, 0))
  ∨ ((dropLogout st.logout (defaultMech cred0)).1 = true ∧
      Login env cred0 st =
        (.ok, { creds := st.creds ++ [defaultMech cred0],
                logout := (dropLogout st.logout (defaultMech cred0)).2 }, 0))
  ∨ ((Login env cred0 st).1 ≠ .ok ∧ (Login env cred0 st).2.1 = st)
  ∨ ((Login env cred0 st).1 = .ok ∧
      ∃ c', c'.Source = (defaultMech cred0).Source ∧
        (Login env cred0 st).2.1 = commitCred c' st) := by
  by_cases hmem : defaultMech cred0 ∈ st.creds
  · exact Or.inl ⟨hmem, by simp [Login, hmem]⟩
  · by_cases hdl : (dropLogout st.logout (defaultMech cred0)).1 = true
    · exact Or.inr (Or.inl ⟨hdl, by simp [Login, hmem, hdl]⟩)
    · by_cases hleg : (defaultMech cred0).Mechanism = "MONGODB-CR" ∨
          (defaultMech cred0).Mechanism = "MONGO-CR"
      · refine Or.inr (Or.inr (Or.inl ?_))
        constructor <;> simp [Login, hmem, hdl, hleg]
      · by_cases hpl : (defaultMech cred0).Mechanism = "PLAIN"
        · rcases hw : env.single with e | e | e | r
          · refine Or.inr (Or.inr (Or.inl ?_))
            constructor <;> simp [Login, loginPlain, hmem, hdl, hleg, hpl, hw]
          · refine Or.inr (Or.inr (Or.inl ?_))
            constructor <;> simp [Login, loginPlain, hmem, hdl, hleg, hpl, hw]
          · refine Or.inr (Or.inr (Or.inl ?_))
            constructor <;> simp [Login, loginPlain, hmem, hdl, hleg, hpl, hw]
          · by_cases hok : r.Ok = true
            · refine Or.inr (Or.inr (Or.inr ?_))
              refine ⟨by simp [Login, loginPlain, hmem, hdl, hleg, hpl, hw, hok],
                defaultMech cred0, rfl, ?_⟩
              simp [Login, loginPlain, hmem, hdl, hleg, hpl, hw, hok]
            · refine Or.inr (Or.inr (Or.inl ?_))
              constructor <;>
                simp [Login, loginPlain, hmem, hdl, hleg, hpl, hw, hok]
        · by_cases hx : (defaultMech cred0).Mechanism = "MONGODB-X509"
          · rcases hw : env.single with e | e | e | r
            · refine Or.inr (Or.inr (Or.inl ?_))
              constructor <;>
                simp [Login, loginX509, hmem, hdl, hleg, hpl, hx, hw]
            · refine Or.inr (Or.inr (Or.inl ?_))
              constructor <;>
                simp [Login, loginX509, hmem, hdl, hleg, hpl, hx, hw]
            · refine Or.inr (Or.inr (Or.inl ?_))
              constructor <;>
                simp [Login, loginX509, hmem, hdl, hleg, hpl, hx, hw]
            · by_cases hok : r.Ok = true
              · refine Or.inr (Or.inr (Or.inr ?_))
                refine ⟨by simp [Login, loginX509, hmem, hdl, hleg, hpl, hx, hw, hok],
                  defaultMech cred0, rfl, ?_⟩
                simp [Login, loginX509, hmem, hdl, hleg, hpl, hx, hw, hok]
              · refine Or.inr (Or.inr (Or.inl ?_))
                constructor <;>
                  simp [Login, loginX509, hmem, hdl, hleg, hpl, hx, hw, hok]
          · have heq : Login env cred0 st =
                saslLoop env.stepF env.replies env.fuel env.s0 initSaslResult 0
                  (defaultMech cred0) st := by
              simp [Login, loginSASL, hmem, hdl, hleg, hpl, hx]
            rcases saslLoop_master env.stepF env.replies env.fuel env.s0
                initSaslResult 0 (defaultMech cred0) st (Or.inl rfl) with
              ⟨h1, h2⟩ | ⟨h1, h2⟩
            · refine Or.inr (Or.inr (Or.inl ?_))
              rw [heq]
              exact ⟨h1, h2⟩
            · refine Or.inr (Or.inr (Or.inr ?_))
              rw [heq]
              exact ⟨h1, { defaultMech cred0 with Mechanism := "" }, rfl, h2⟩

/-- A state whose active set holds the SCRAM credential. -/
def stActiveScram : AuthState := { creds := [credScram], logout := [] }

/-- A state whose pending-logout queue holds the empty-mechanism credential. -/
def stQueuedEmptyMech : AuthState := { creds := [], logout := [credEmptyMech] }

/-- A state whose pending-logout queue holds the SCRAM-tagged credential. -/
def stQueuedScram : AuthState := { creds := [], logout := [credScram] }

/-- A legacy challenge-response credential. -/
def credCR : Credential := { credScram with Mechanism := "MONGODB-CR" }

/-- C1 (amended): if a credential equal to the defaulted credential is already
in the active set, `Login` returns success, performs no network round trip and
leaves the active set and pending-logout queue unchanged.  The further claim
that `Login` is therefore idempotent fails: a successful SASL login commits
the credential with its mechanism erased, so a second call with the equal
credential repeats the network sequence (see the counterexample). -/
theorem c1_login_active_noop {σ : Type} (env : MechEnv σ) (c : Credential)
    (st : AuthState) (h : defaultMech c ∈ st.creds) :
    Login env c st = (.ok, st, 0) := by
  simp [Login, h]

/-- C1 counterexample: after a successful SCRAM-SHA-1 login from the empty
state, a second `Login` with the equal credential performs one further network
round trip instead of being a pure no-op. -/
theorem c1_counterexample :
    (Login envOk credScram st0).1 = .ok ∧
    (Login envOk credScram (Login envOk credScram st0).2.1).2.2 = 1 := by
  constructor <;> decide

/-- Closed instance of `c1_login_active_noop`. -/
theorem c1_witness :
    defaultMech credScram ∈ stActiveScram.creds ∧
    Login envOk credScram stActiveScram = (.ok, stActiveScram, 0) :=
  ⟨by decide, c1_login_active_noop envOk credScram stActiveScram (by decide)⟩

/-- C2 (amended): if a credential equal to the DEFAULTED credential is in the
pending-logout queue (and the defaulted credential is not active), `Login`
removes it from the queue, appends the defaulted credential to the active set
and returns success with zero network operations; consequently, a `Logout`
whose flagged credential equals the defaulted login credential, followed by
that `Login` before any flush, leaves the pending queue empty.  Equality
before defaulting does not suffice: see the counterexample. -/
theorem c2_login_pending_revival :
    (∀ (σ : Type) (env : MechEnv σ) (c : Credential) (st : AuthState),
        defaultMech c ∉ st.creds →
        (dropLogout st.logout (defaultMech c)).1 = true →
        Login env c st =
          (.ok, { creds := st.creds ++ [defaultMech c],
                  logout := (dropLogout st.logout (defaultMech c)).2 }, 0))
  ∧ (∀ (σ : Type) (env : MechEnv σ) (c : Credential) (db : String)
        (st : AuthState),
        (Logout db st).logout = [defaultMech c] →
        defaultMech c ∉ (Logout db st).creds →
        (Login env c (Logout db st)).2.1.logout = [] ∧
        (Login env c (Logout db st)).2.2 = 0) := by
  have hmain : ∀ (σ : Type) (env : MechEnv σ) (c : Credential) (st : AuthState),
      defaultMech c ∉ st.creds →
      (dropLogout st.logout (defaultMech c)).1 = true →
      Login env c st =
        (.ok, { creds := st.creds ++ [defaultMech c],
                logout := (dropLogout st.logout (defaultMech c)).2 }, 0) := by
    intro σ env c st h1 h2
    simp [Login, h1, h2]
  refine ⟨hmain, ?_⟩
  intro σ env c db st hq hnc
  have h2 : (dropLogout (Logout db st).logout (defaultMech c)).1 = true := by
    rw [hq]
    simp [dropLogout]
  rw [hmain σ env c (Logout db st) hnc h2]
  refine ⟨?_, rfl⟩
  rw [hq]
  simp [dropLogout]

/-- C2 counterexample: the queue holds a credential equal (before defaulting)
to the login credential, whose mechanism field is empty — the form in which
the SASL driver itself commits credentials.  `Login` fails to revive it: it
performs a network round trip and leaves the queued credential in place. -/
theorem c2_counterexample :
    credEmptyMech ∈ stQueuedEmptyMech.logout ∧
    (Login envOk credEmptyMech stQueuedEmptyMech).2.2 = 1 ∧
    (Login envOk credEmptyMech stQueuedEmptyMech).2.1.logout =
      [credEmptyMech] := by
  refine ⟨by decide, by decide, by decide⟩

/-- Closed instance of `c2_login_pending_revival`. -/
theorem c2_witness :
    (defaultMech credEmptyMech ∉ stQueuedScram.creds ∧
      (dropLogout stQueuedScram.logout (defaultMech credEmptyMech)).1 = true) ∧
    Login envOk credEmptyMech stQueuedScram =
      (.ok, { creds := stQueuedScram.creds ++ [defaultMech credEmptyMech],
              logout :=
                (dropLogout stQueuedScram.logout
                  (defaultMech credEmptyMech)).2 }, 0) :=
  ⟨⟨by decide, by decide⟩,
    c2_login_pending_revival.1 Nat envOk credEmptyMech stQueuedScram
      (by decide) (by decide)⟩

/-- C3: `flushLogout` returns one logout descriptor per queued credential, in
queue order, each addressed to that credential namespace (`Source + ".$cmd"`,
see `mkLogoutOp`), leaves the active set untouched and empties the queue, so
an immediately following flush returns no descriptors; and each `Logout` of an
active namespace appends exactly its flagged credential to the queue. -/
theorem c3_flush_drains_queue :
    (∀ st : AuthState,
        (flushLogout st).1 = st.logout.map mkLogoutOp ∧
        (flushLogout st).1.length = st.logout.length ∧
        (flushLogout st).2 = { creds := st.creds, logout := [] } ∧
        (flushLogout (flushLogout st).2).1 = [])
  ∧ (∀ (db : String) (st : AuthState) (c : Credential),
        (dropAuth st.creds db).1 = some c →
        (Logout db st).logout = st.logout ++ [c]) := by
  constructor
  · intro st
    exact ⟨rfl, by simp [flushLogout], rfl, rfl⟩
  · intro db st c h
    rcases hda : dropAuth st.creds db with ⟨o, rest⟩
    have ho : o = some c := by rw [hda] at h; exact h
    subst ho
    simp [Logout, hda]

/-- Closed instance of `c3_flush_drains_queue`. -/
theorem c3_witness :
    (dropAuth stActiveScram.creds "db").1 = some credScram ∧
    (Logout "db" stActiveScram).logout = stActiveScram.logout ++ [credScram] :=
  ⟨by decide, c3_flush_drains_queue.2 "db" stActiveScram credScram (by decide)⟩

/-- C4: a credential with a legacy challenge-response mechanism identifier
(either variant) that is neither active nor pending-logout fails immediately
with the unsupported-mechanism error, performs zero network operations and
leaves the state unchanged. -/
theorem c4_legacy_mechanism_rejected {σ : Type} (env : MechEnv σ)
    (c : Credential) (st : AuthState)
    (hm : c.Mechanism = "MONGODB-CR" ∨ c.Mechanism = "MONGO-CR")
    (h1 : c ∉ st.creds) (h2 : (dropLogout st.logout c).1 = false) :
    Login env c st = (.err (unsupportedMechMsg c.Mechanism), st, 0) := by
  have hne : c.Mechanism ≠ "" := by
    rcases hm with h | h <;> simp [h]
  have hdc : defaultMech c = c := by simp [defaultMech, hne]
  rcases hm with h | h <;> simp [Login, hdc, h1, h2, h]

/-- Closed instance of `c4_legacy_mechanism_rejected`. -/
theorem c4_witness :
    (credCR.Mechanism = "MONGODB-CR" ∨ credCR.Mechanism = "MONGO-CR") ∧
    Login envOk credCR st0 = (.err (unsupportedMechMsg credCR.Mechanism), st0, 0) :=
  ⟨Or.inl rfl,
    c4_legacy_mechanism_rejected envOk credCR st0 (Or.inl rfl) (by decide)
      (by decide)⟩

/-- C5: the SASL round check accepts a reply exactly when it has ok set and a
zero error code, and a first-round reply with ok set but a nonzero error code
makes the SASL login evaluate to the remote-authentication error, not
success. -/
theorem c5_ok_with_nonzero_code_is_error :
    (∀ r : saslResult, saslResultError r = false ↔ (r.Ok = true ∧ r.NotOk = false))
  ∧ (∀ (σ : Type) (stepF : σ → List Nat → Except String (σ × List Nat × Bool))
        (replies : Nat → wireOutcome saslResult) (fuel : Nat) (s0 : σ)
        (cred : Credential) (st : AuthState) (s1 : σ) (p : List Nat) (d : Bool)
        (r : saslResult),
        stepF s0 [] = .ok (s1, p, d) →
        replies 0 = .decoded r →
        r.Ok = true → r.NotOk = true →
        loginSASL stepF replies (fuel + 1) s0 cred st =
          (.err (saslStepErrMsg r.ErrMsg), st, 1)) := by
  constructor
  · intro r
    cases hOk : r.Ok <;> cases hNo : r.NotOk <;> simp [saslResultError, hOk, hNo]
  · intro σ stepF replies fuel s0 cred st s1 p d r hstep hrep hOk hNo
    have herr : saslResultError r = true := by simp [saslResultError, hOk, hNo]
    simp [loginSASL, saslLoop, initSaslResult, hstep, hrep, herr]

/-- Closed instance of `c5_ok_with_nonzero_code_is_error`. -/
theorem c5_witness :
    (stepDoneNow 0 [] = .ok (0, [], true) ∧
      badCodeReplies 0 = .decoded badCodeReply ∧
      badCodeReply.Ok = true ∧ badCodeReply.NotOk = true) ∧
    loginSASL stepDoneNow badCodeReplies (4 + 1) 0 credScram st0 =
      (.err (saslStepErrMsg badCodeReply.ErrMsg), st0, 1) :=
  ⟨⟨rfl, rfl, rfl, rfl⟩,
    c5_ok_with_nonzero_code_is_error.2 Nat stepDoneNow badCodeReplies 4 0
      credScram st0 0 [] true badCodeReply rfl rfl rfl rfl⟩

/-- C6: whenever `Login` returns an error — stepper error, transport error,
decode error or remote authentication failure — the active set and
pending-logout queue are exactly as before (no partial commit), and a
credential newly present in the active set implies the call succeeded. -/
theorem c6_no_partial_commit {σ : Type} (env : MechEnv σ) (c : Credential)
    (st : AuthState) :
    (∀ e : String, (Login env c st).1 = .err e → (Login env c st).2.1 = st)
  ∧ (∀ c' : Credential, c' ∈ (Login env c st).2.1.creds → c' ∉ st.creds →
      (Login env c st).1 = .ok) := by
  rcases login_master env c st with ⟨hmem, heq⟩ | ⟨hdl, heq⟩ | ⟨hne, hst⟩ |
    ⟨hok, c', hsrc, hst⟩
  · constructor
    · intro e he
      rw [heq] at he
      simp at he
    · intro c1 _ _
      simp [heq]
  · constructor
    · intro e he
      rw [heq] at he
      simp at he
    · intro c1 _ _
      simp [heq]
  · constructor
    · intro e _
      exact hst
    · intro c1 hmem1 hnmem
      rw [hst] at hmem1
      exact absurd hmem1 hnmem
  · constructor
    · intro e he
      rw [hok] at he
      simp at he
    · intro _ _ _
      exact hok

/-- Closed instance of `c6_no_partial_commit`: a transport failure of the
single PLAIN round trip surfaces as that error with the state untouched. -/
theorem c6_witness :
    (Login envEof credPlain st0).1 = .err "eof" ∧
    (Login envEof credPlain st0).2.1 = st0 :=
  ⟨by decide, (c6_no_partial_commit envEof credPlain st0).1 "eof" (by decide)⟩

/-- A per-source-unique active set together with a queued same-source
credential of another user: the revival path of `Login` breaks uniqueness. -/
def stRevDup : AuthState := { creds := [credScram], logout := [credU2] }

/-- C7 counterexample: the active set satisfies the per-source uniqueness
invariant, yet a `Login` that revives a pending-logout credential of the same
namespace (the revival path appends without `dropAuth`) succeeds and leaves
two credentials with source db in the active set. -/
theorem c7_counterexample :
    sourcesUnique stRevDup.creds = true ∧
    (Login envOk credU2 stRevDup).1 = .ok ∧
    sourcesUnique (Login envOk credU2 stRevDup).2.1.creds = false := by
  refine ⟨by decide, by decide, by decide⟩

/-- C7 (amended): per-source uniqueness of the active set is preserved by
`Logout`, `LogoutAll` and `flushLogout`, and by `Login` provided that no
active credential shares the defaulted credential namespace whenever the
revival path can fire; on driver success the same-source credential is
dropped before the new one is appended, so that path always preserves it. -/
theorem c7_sources_unique_preserved :
    (∀ (db : String) (st : AuthState), sourcesUnique st.creds = true →
        sourcesUnique (Logout db st).creds = true)
  ∧ (∀ st : AuthState, sourcesUnique st.creds = true →
        sourcesUnique (LogoutAll st).creds = true)
  ∧ (∀ st : AuthState, sourcesUnique st.creds = true →
        sourcesUnique ((flushLogout st).2).creds = true)
  ∧ (∀ (σ : Type) (env : MechEnv σ) (c : Credential) (st : AuthState),
        sourcesUnique st.creds = true →
        ((dropLogout st.logout (defaultMech c)).1 = true →
          ∀ d ∈ st.creds, d.Source ≠ (defaultMech c).Source) →
        sourcesUnique (Login env c st).2.1.creds = true) := by
  refine ⟨?_, ?_, ?_, ?_⟩
  · intro db st hu
    rcases hda : dropAuth st.creds db with ⟨o, rest⟩
    cases o with
    | none => simpa [Logout, hda] using hu
    | some d =>
      have h2 := sourcesUnique_dropAuth st.creds db hu
      rw [hda] at h2
      simpa [Logout, hda] using h2
  · intro st hu
    by_cases h : st.creds.length > 0
    · simp [LogoutAll, h, sourcesUnique]
    · simpa [LogoutAll, h] using hu
  · intro st hu
    simpa [flushLogout] using hu
  · intro σ env c st hu hguard
    rcases login_master env c st with ⟨hmem, heq⟩ | ⟨hdl, heq⟩ | ⟨hne, hst⟩ |
      ⟨hok, c', hsrc, hst⟩
    · simpa [heq] using hu
    · simp only [heq]
      exact sourcesUnique_append_one st.creds (defaultMech c) hu (hguard hdl)
    · rw [hst]
      exact hu
    · rw [hst]
      simp only [commitCred]
      exact sourcesUnique_append_one _ c'
        (sourcesUnique_dropAuth st.creds c'.Source hu)
        (fun d hd => dropAuth_not_source st.creds c'.Source hu d hd)

/-- Closed instance of `c7_sources_unique_preserved`. -/
theorem c7_witness :
    sourcesUnique stActiveScram.creds = true ∧
    sourcesUnique (Logout "db" stActiveScram).creds = true :=
  ⟨by decide, c7_sources_unique_preserved.1 "db" stActiveScram (by decide)⟩

/-- A state with one active X509 credential on namespace db. -/
def stX : AuthState := { creds := [credX1], logout := [] }

/-- C8 counterexample: a successful `Login` of a second credential on the same
namespace removes the first credential from the active set (replacement on
driver success) without moving it to the pending-logout queue — removal is not
only via Logout/LogoutAll. -/
theorem c8_counterexample :
    credX1 ∈ stX.creds ∧
    (Login envOk credX2 stX).1 = .ok ∧
    credX1 ∉ (Login envOk credX2 stX).2.1.creds ∧
    credX1 ∉ (Login envOk credX2 stX).2.1.logout := by
  refine ⟨by decide, by decide, by decide, by decide⟩

/-- C8 (amended): a credential leaves the active set only through a `Logout`
or `LogoutAll` step (which moves it to the pending-logout queue), or through a
successful `Login` whose defaulted credential carries the same source
namespace (replacement on driver success, which discards it). -/
theorem c8_creds_removal_cases {σ : Type} (op : AuthOp σ) (st : AuthState)
    (c : Credential) (hin : c ∈ st.creds)
    (hout : c ∉ (applyOp op st).creds) :
    (∃ db, op = .opLogout db ∧ c ∈ (applyOp op st).logout)
  ∨ (op = .opLogoutAll ∧ c ∈ (applyOp op st).logout)
  ∨ (∃ (env : MechEnv σ) (c' : Credential), op = .opLogin env c' ∧
      (Login env c' st).1 = .ok ∧ (defaultMech c').Source = c.Source) := by
  cases op with
  | opFlush =>
    exact absurd hin (by simpa [applyOp, flushLogout] using hout)
  | opLogoutAll =>
    refine Or.inr (Or.inl ⟨rfl, ?_⟩)
    by_cases h : st.creds.length > 0
    · simp only [applyOp, LogoutAll, if_pos h, List.mem_append]
      exact Or.inr hin
    · exact absurd hin (by simpa [applyOp, LogoutAll, h] using hout)
  | opLogout db =>
    refine Or.inl ⟨db, rfl, ?_⟩
    rcases hda : dropAuth st.creds db with ⟨o, rest⟩
    cases o with
    | none =>
      exfalso
      have hm2 : c ∉ st.creds := by
        simpa [applyOp, Logout, hda] using hout
      exact hm2 hin
    | some d =>
      have hout2 : c ∉ (dropAuth st.creds db).2 := by
        rw [hda]
        simpa [applyOp, Logout, hda] using hout
      have h1 := (dropAuth_removed st.creds db c hin hout2).1
      rw [hda] at h1
      have hdc : d = c := by
        injection h1
      subst hdc
      simp only [applyOp, Logout, hda, List.mem_append, List.mem_singleton]
      exact Or.inr trivial
  | opLogin env cr =>
    rcases login_master env cr st with ⟨hmem, heq⟩ | ⟨hdl, heq⟩ | ⟨hne, hst⟩ |
      ⟨hok, c', hsrc, hst⟩
    · exact absurd hin (by simpa [applyOp, heq] using hout)
    · exfalso
      have hm2 : ¬(c ∈ st.creds ∨ c = defaultMech cr) := by
        simpa [applyOp, heq, List.mem_append] using hout
      exact hm2 (Or.inl hin)
    · exact absurd hin (by simpa [applyOp, hst] using hout)
    · refine Or.inr (Or.inr ⟨env, cr, rfl, hok, ?_⟩)
      have hout2 : c ∉ (dropAuth st.creds c'.Source).2 := by
        intro hm
        apply hout
        simp only [applyOp, hst, commitCred, List.mem_append]
        exact Or.inl hm
      have h2 := (dropAuth_removed st.creds c'.Source c hin hout2).2
      rw [← hsrc]
      exact h2.symm

/-- The logout-of-db operation at state type Nat, used to instantiate C8. -/
def opLogoutDb : AuthOp Nat := .opLogout "db"

/-- Closed instance of `c8_creds_removal_cases`. -/
theorem c8_witness :
    (credScram ∈ stActiveScram.creds ∧
      credScram ∉ (applyOp opLogoutDb stActiveScram).creds) ∧
    ((∃ db, opLogoutDb = .opLogout db ∧
        credScram ∈ (applyOp opLogoutDb stActiveScram).logout)
     ∨ (opLogoutDb = .opLogoutAll ∧
        credScram ∈ (applyOp opLogoutDb stActiveScram).logout)
     ∨ (∃ (env : MechEnv Nat) (c' : Credential), opLogoutDb = .opLogin env c' ∧
        (Login env c' stActiveScram).1 = .ok ∧
        (defaultMech c').Source = credScram.Source)) :=
  ⟨⟨by decide, by decide⟩,
    c8_creds_removal_cases opLogoutDb stActiveScram credScram (by decide)
      (by decide)⟩

/-- The SASL loop never terminates on the given inputs: for every fuel bound
the run is still unfinished. -/
def saslRunsForever {σ : Type}
    (stepF : σ → List Nat → Except String (σ × List Nat × Bool))
    (replies : Nat → wireOutcome saslResult) (s0 : σ) (cred : Credential)
    (st : AuthState) : Prop :=
  ∀ fuel : Nat, (loginSASL stepF replies fuel s0 cred st).1 = .outOfFuel

/-- Against a stepper that never errs and a peer that always replies ok with
zero error code and the done flag clear, every iteration of the SASL loop
recurses: the run exhausts any fuel bound. -/
theorem saslLoop_neverDone {σ : Type}
    (stepF : σ → List Nat → Except String (σ × List Nat × Bool))
    (replies : Nat → wireOutcome saslResult)
    (hstep : ∀ (s : σ) (p : List Nat), ∃ t, stepF s p = .ok t)
    (hrep : ∀ n : Nat, ∃ r : saslResult, replies n = .decoded r ∧
      r.Ok = true ∧ r.NotOk = false ∧ r.Done = false)
    (fuel : Nat) :
    ∀ (s : σ) (res : saslResult) (n : Nat) (cred : Credential)
      (st : AuthState), res.Done = false →
      (saslLoop stepF replies fuel s res n cred st).1 = .outOfFuel := by
  induction fuel with
  | zero =>
    intro s res n cred st _
    simp [saslLoop]
  | succ f ih =>
    intro s res n cred st hres
    obtain ⟨⟨s', p, d⟩, hs⟩ := hstep s res.Payload
    obtain ⟨r, hr, hOk, hNo, hD⟩ := hrep n
    have herr : saslResultError r = false := by
      simp [saslResultError, hOk, hNo]
    have hpre : (d && res.Done) = false := by simp [hres]
    have hdone : (d && r.Done) = false := by simp [hD]
    simp only [saslLoop, hs, hpre, hr, herr, hdone, Bool.false_eq_true,
      if_false, ite_false]
    exact ih s' r (n + 1) _ st hD

/-- C9 counterexample: with the spec-modelled scram stepper (locally done
after its final message, never erring) and a peer that always replies ok
without ever setting the done flag, the SASL login loop of src/auth.go never
terminates — its only exits are an error, a not-ok reply, or both done flags
set. -/
theorem c9_counterexample :
    saslRunsForever scramModelStep neverDoneReplies 0 credScram st0 := by
  intro fuel
  show (saslLoop scramModelStep neverDoneReplies fuel 0 initSaslResult 0
    credScram st0).1 = .outOfFuel
  apply saslLoop_neverDone
  · intro s p
    by_cases h : s ≥ 3
    · exact ⟨(s, [], true), by simp [scramModelStep, h]⟩
    · exact ⟨(s + 1, [s], s + 1 ≥ 3), by simp [scramModelStep, h]⟩
  · intro n
    exact ⟨okNotDoneReply, rfl, rfl, rfl, rfl⟩
  · rfl

/-- Whether a round-trip outcome is an ok reply with zero error code (the only
outcome that lets the SASL loop proceed to another round). -/
def okSaslRound : wireOutcome saslResult → Bool
  | .decoded r => r.Ok && !r.NotOk
  | _ => false

/-- If the SASL loop exhausted its fuel, every consumed round trip delivered
an ok reply with zero error code. -/
theorem saslLoop_fuel_ok {σ : Type}
    (stepF : σ → List Nat → Except String (σ × List Nat × Bool))
    (replies : Nat → wireOutcome saslResult) :
    ∀ (fuel : Nat) (s : σ) (res : saslResult) (n : Nat) (cred : Credential)
      (st : AuthState),
      (saslLoop stepF replies fuel s res n cred st).1 = .outOfFuel →
      ∀ k, n ≤ k → k < n + fuel → okSaslRound (replies k) = true := by
  intro fuel
  induction fuel with
  | zero =>
    intro s res n cred st _ k h1 h2
    omega
  | succ f ih =>
    intro s res n cred st h k h1 h2
    rcases hs : stepF s res.Payload with e | ⟨s', p, d⟩
    · simp [saslLoop, hs] at h
    · by_cases hpre : (d && res.Done) = true
      · simp [saslLoop, hs, hpre] at h
      · rcases hr : replies n with e | e | e | r
        · simp [saslLoop, hs, hpre, hr] at h
        · simp [saslLoop, hs, hpre, hr] at h
        · simp [saslLoop, hs, hpre, hr] at h
        · by_cases herr : saslResultError r = true
          · simp [saslLoop, hs, hpre, hr, herr] at h
          · by_cases hdone : (d && r.Done) = true
            · simp [saslLoop, hs, hpre, hr, herr, hdone] at h
            · have hrec : (saslLoop stepF replies f s' r (n + 1)
                  { cred with Mechanism := "" } st).1 = .outOfFuel := by
                simpa [saslLoop, hs, hpre, hr, herr, hdone] using h
              by_cases hk : k = n
              · subst hk
                rw [hr]
                cases hOk : r.Ok <;> cases hNo : r.NotOk <;>
                  simp_all [okSaslRound, saslResultError]
              · exact ih s' r (n + 1) _ st hrec k (by omega) (by omega)

/-- C9 (amended): for every stepper and reply sequence the SASL loop, run with
any fuel bound, terminates within that bound as soon as some consumed round
trip does not deliver an ok zero-code reply (transport error, decode error or
not-ok reply) — while against a peer that forever replies ok without the done
flag and a stepper that never errs, it does not terminate at all (see the
counterexample): termination is not bounded for every reply sequence. -/
theorem c9_sasl_loop_termination {σ : Type}
    (stepF : σ → List Nat → Except String (σ × List Nat × Bool))
    (replies : Nat → wireOutcome saslResult) (fuel : Nat) (s0 : σ)
    (cred : Credential) (st : AuthState) (k : Nat)
    (hk : k < fuel) (hbad : okSaslRound (replies k) = false) :
    (loginSASL stepF replies fuel s0 cred st).1 ≠ .outOfFuel := by
  intro h
  have h2 : (saslLoop stepF replies fuel s0 initSaslResult 0 cred st).1 =
      .outOfFuel := h
  have := saslLoop_fuel_ok stepF replies fuel s0 initSaslResult 0 cred st h2 k
    (Nat.zero_le k) (by omega)
  rw [this] at hbad
  cases hbad

/-- Closed instance of `c9_sasl_loop_termination`. -/
theorem c9_witness :
    (0 < 5 ∧ okSaslRound (eofReplies 0) = false) ∧
    (loginSASL stepDoneNow eofReplies 5 0 credScram st0).1 ≠ .outOfFuel :=
  ⟨⟨by decide, by decide⟩,
    c9_sasl_loop_termination stepDoneNow eofReplies 5 0 credScram st0 0
      (by decide) (by decide)⟩

/-- C10 counterexample: after a successful empty-mechanism (hence SCRAM)
login, the committed credential carries an empty mechanism tag, not the
explicit "SCRAM-SHA-1" tag, and a subsequent explicit SCRAM-SHA-1 login of the
same fields is NOT deduplicated: it performs a network round trip. -/
theorem c10_counterexample :
    (Login envOk credEmptyMech st0).1 = .ok ∧
    (Login envOk credEmptyMech st0).2.1.creds = [credEmptyMech] ∧
    credEmptyMech.Mechanism ≠ "SCRAM-SHA-1" ∧
    (Login envOk credScram (Login envOk credEmptyMech st0).2.1).2.2 = 1 := by
  refine ⟨by decide, by decide, by decide, by decide⟩

/-- C10 (amended): a `Login` with empty mechanism behaves exactly like the
same `Login` with explicit "SCRAM-SHA-1" — the default is applied before the
active-set and pending-queue equality checks, so a stored SCRAM-SHA-1-tagged
credential deduplicates a later empty-mechanism login of the same fields.
However, on SASL protocol success the committed credential carries an EMPTY
mechanism tag (src/auth.go line 232 erases it before the first round trip),
not the explicit tag, so neither a stored empty-mechanism credential nor the
result of a SASL commit deduplicates later logins. -/
theorem c10_empty_mech_defaults_to_scram :
    (∀ (σ : Type) (env : MechEnv σ) (c : Credential) (st : AuthState),
        c.Mechanism = "" →
        Login env c st = Login env { c with Mechanism := "SCRAM-SHA-1" } st)
  ∧ (∀ (σ : Type) (env : MechEnv σ) (c : Credential) (st : AuthState),
        c.Mechanism = "" →
        { c with Mechanism := "SCRAM-SHA-1" } ∈ st.creds →
        Login env c st = (.ok, st, 0))
  ∧ (∀ (σ : Type) (stepF : σ → List Nat → Except String (σ × List Nat × Bool))
        (replies : Nat → wireOutcome saslResult) (fuel : Nat) (s0 : σ)
        (cred : Credential) (st : AuthState),
        (loginSASL stepF replies fuel s0 cred st).1 = .ok →
        (loginSASL stepF replies fuel s0 cred st).2.1 =
          commitCred { cred with Mechanism := "" } st) := by
  refine ⟨?_, ?_, ?_⟩
  · intro σ env c st h
    have hdef : defaultMech c = defaultMech { c with Mechanism := "SCRAM-SHA-1" } := by
      simp [defaultMech, h]
    unfold Login
    rw [hdef]
  · intro σ env c st h hmem
    have h2 : defaultMech c ∈ st.creds := by
      have : defaultMech c = { c with Mechanism := "SCRAM-SHA-1" } := by
        simp [defaultMech, h]
      rw [this]
      exact hmem
    simp [Login, h2]
  · intro σ stepF replies fuel s0 cred st hok
    rcases saslLoop_master stepF replies fuel s0 initSaslResult 0 cred st
      (Or.inl rfl) with ⟨h1, _⟩ | ⟨_, h2⟩
    · exact absurd hok h1
    · exact h2

/-- Closed instance of `c10_empty_mech_defaults_to_scram`. -/
theorem c10_witness :
    (credEmptyMech.Mechanism = "" ∧
      { credEmptyMech with Mechanism := "SCRAM-SHA-1" } ∈ stActiveScram.creds) ∧
    Login envOk credEmptyMech stActiveScram = (.ok, stActiveScram, 0) :=
  ⟨⟨rfl, by decide⟩,
    c10_empty_mech_defaults_to_scram.2.1 Nat envOk credEmptyMech stActiveScram
      rfl (by decide)⟩
